import Mathlib

/-!
# Juggler: broker keys, cluster connection binding, call broker, upgrade gate

A shallow embedding of the parts of `mna/juggler` that the specification's
contract claims talk about:

* `internal/redconn/redconn.go`: the broker key formats, `Connector.Call`,
  one iteration of the `ProcessCalls` loop and `expJitterDelay`;
* `redisc/conn.go`: the lazily bound cluster connection `Conn`
  (`bind`, `cmdSlot`, `Bind`, `Do`, `Send`, `Receive`, `Flush`, `Err`, `Close`);
* `server.go`: `Subprotocols`, `isIn` and the handler returned by `Upgrade`.

Go strings are modelled as `List Char`, Go `int` / `time.Duration` values as
`Int`, and calls into collaborators (the cluster, an upstream node, the pool
connection, the websocket) as events appended to an explicit trace.
-/

namespace Juggler

/-- A Go string, as its sequence of characters. -/
abbrev Str := List Char

/-! ## Broker keys (`internal/redconn/redconn.go`) -/

/-- The format `callKey = "juggler:calls:{%s}"` applied to a URI. -/
def callKey (uri : Str) : Str :=
  "juggler:calls:\x7b".toList ++ uri ++ "\x7d".toList

/-- The format `callTimeoutKey = "juggler:calls:timeout:{%s}:%s"` applied to
a URI and a message UUID. -/
def callTimeoutKey (uri mUUID : Str) : Str :=
  "juggler:calls:timeout:\x7b".toList ++ uri ++ "\x7d:".toList ++ mUUID

/-- The format `resKey = "juggler:results:{%s}"` applied to a connection UUID. -/
def resKey (cUUID : Str) : Str :=
  "juggler:results:\x7b".toList ++ cUUID ++ "\x7d".toList

/-- The format `resTimeoutKey = "juggler:results:timeout:{%s}:%s"` applied to
a connection UUID and a message UUID. -/
def resTimeoutKey (cUUID mUUID : Str) : Str :=
  "juggler:results:timeout:\x7b".toList ++ cUUID ++ "\x7d:".toList ++ mUUID

/-! ## Hash slots (`redisc`, `Slot`) -/

/-- Modelled from the spec: the hash-tag rule of `redisc.Slot` (the file that
defines `Slot` is not among the sources). Only the substring between the first
`{` and the first `}` after it is hashed when that substring is non-empty;
otherwise the whole key is hashed. -/
def hashTag (key : Str) : Str :=
  match key.dropWhile (fun c => c != '{') with
  | [] => key
  | _ :: rest =>
    let tag := rest.takeWhile (fun c => c != '}')
    if tag.length = rest.length then key
    else if tag = [] then key
    else tag

/-- One bit step of CRC16 (polynomial `0x1021`) on a 16-bit register. -/
def crc16Bit (crc : Nat) : Nat :=
  if crc &&& 0x8000 = 0 then (crc <<< 1) % 65536
  else ((crc <<< 1) ^^^ 0x1021) % 65536

/-- Feed one byte into the CRC16 register. -/
def crc16Byte (crc b : Nat) : Nat :=
  crc16Bit (crc16Bit (crc16Bit (crc16Bit (crc16Bit (crc16Bit (crc16Bit
    (crc16Bit (crc ^^^ (b <<< 8)))))))))

/-- The UTF-8 bytes of a Go string. -/
def utf8Bytes (s : Str) : List Nat :=
  s.flatMap (fun c => (String.utf8EncodeChar c).map (fun b => b.toNat))

/-- Modelled from the spec: the hash behind the "14-bit hash slot" of a key
(absent from the sources): Redis Cluster's CRC16 (XMODEM variant, initial
value 0) over the bytes of the string. -/
def crc16 (s : Str) : Nat :=
  (utf8Bytes s).foldl crc16Byte 0

/-- Number of hash slots of a cluster: the slot is a 14-bit value. -/
def hashSlots : Nat := 16384

/-- Modelled from the spec: `redisc.Slot` (absent from the sources), the
14-bit hash slot of a key, computed on its hash tag. -/
def Slot (key : Str) : Int :=
  ((crc16 (hashTag key) % hashSlots : Nat) : Int)

/-! ## Values exchanged with Redis -/

/-- A Go `error` value, identified by its message; `Option GoError` is an
`error` that may be `nil`. -/
structure GoError where
  msg : String
  deriving DecidableEq, Repr

/-- A command argument (`interface{}`): the kinds of value this code passes. -/
inductive Arg where
  | str (s : Str)
  | int (i : Int)
  | bytes (b : List Nat)
  deriving DecidableEq, Repr

/-- The text `fmt.Sprintf("%v", a)` produces for an argument. -/
def sprintV : Arg → Str
  | .str s => s
  | .int i => (toString i).toList
  | .bytes b => "[".toList ++ (" ".intercalate (b.map toString)).toList ++ "]".toList

/-- An element of an array reply. -/
inductive Item where
  | null
  | int (i : Int)
  | bulk (b : List Nat)
  deriving DecidableEq, Repr

/-- A reply of a Redis command (`interface{}`), `null` being the nil reply. -/
inductive Reply where
  | null
  | int (i : Int)
  | bulk (b : List Nat)
  | status (s : Str)
  | array (items : List Item)
  deriving DecidableEq, Repr

/-- Identity of an upstream `redis.Conn` (a connection to one node, or a
connection handed out by a pool). -/
abbrev Node := Nat

/-- Modelled from the spec: `msg.CallPayload` (its package is not among the
sources): `{ msgUUID, connUUID, URI, args, timeout, readTimestamp,
ttlAfterRead }`, times in nanoseconds. -/
structure CallPayload where
  MsgUUID : Str
  ConnUUID : Str
  URI : Str
  Args : List Nat
  Timeout : Int
  ReadTimestamp : Int
  TTLAfterRead : Int
  deriving DecidableEq, Repr

/-- Calls made to the collaborators, in the order they are made. -/
inductive Event where
  | getConn (slot : Int)
  | poolGet (n : Node)
  | nodeDo (n : Node) (cmd : Str) (args : List Arg)
  | nodeSend (n : Node) (cmd : Str) (args : List Arg)
  | nodeReceive (n : Node)
  | nodeFlush (n : Node)
  | nodeErr (n : Node)
  | nodeClose (n : Node)
  | logf (text : String)
  | chSend (cp : CallPayload)
  deriving DecidableEq, Repr

/-- What the collaborators answer, given the calls made so far: the cluster
(`getConn`), the pool (`poolGet`), an upstream connection (`Do`, `Send`,
`Receive`, `Flush`, `Err`, `Close`), the clock, and the library functions
`json.Marshal`, `json.Unmarshal`, `redis.Values` and `redis.Scan`. -/
structure Env where
  getConn : List Event → Int → Except GoError Node
  poolGet : List Event → Node
  doReply : List Event → Node → Str → List Arg → Reply × Option GoError
  sendErr : List Event → Node → Str → List Arg → Option GoError
  recvReply : List Event → Node → Reply × Option GoError
  flushErr : List Event → Node → Option GoError
  errErr : List Event → Node → Option GoError
  closeErr : List Event → Node → Option GoError
  now : List Event → Int
  marshal : CallPayload → Except GoError (List Nat)
  unmarshal : List Nat → Except GoError CallPayload
  values : Reply × Option GoError → Except GoError (List Item)
  scanSkipBytes : List Item → Option GoError
  scanInt : List Item → Except GoError Int

/-- What a Go call comes to: it returns, or it panics on a method call through
a nil interface value. -/
inductive Outcome (α : Type) where
  | ret (a : α)
  | nilPanic
  deriving DecidableEq, Repr

/-! ## The cluster connection (`redisc/conn.go`) -/

/-- The fields of `Conn` (the mutex, which only serialises the methods, and
the cluster pointer, which is the environment, are left out). -/
structure Conn where
  forceDial : Bool
  err : Option GoError
  rc : Option Node
  deriving DecidableEq, Repr

/-- A connection together with the calls made so far. -/
structure St where
  conn : Conn
  trace : List Event
  deriving DecidableEq, Repr

/-- The method `Conn.bind`: `rc, err = c.rc, c.err` are read first; the
cluster is asked for a node only when both are nil, and the node is stored in
`c.rc`. The results are the `rc` read at the start, `ok` and `err`. -/
def bind (env : Env) (slot : Int) (s : St) : (Option Node × Bool × Option GoError) × St :=
  let rc := s.conn.rc
  match s.conn.err with
  | some e => ((rc, false, some e), s)
  | none =>
    match rc with
    | some _ => ((rc, false, none), s)
    | none =>
      match env.getConn s.trace slot with
      | .error err2 => ((rc, false, some err2), { s with trace := s.trace ++ [.getConn slot] })
      | .ok conn =>
        ((rc, true, none),
          { conn := { s.conn with rc := some conn }, trace := s.trace ++ [.getConn slot] })

/-- The function `cmdSlot`. -/
def cmdSlot (_cmd : Str) (args : List Arg) : Int :=
  match args with
  | [] => -1
  | a :: _ => Slot (sprintV a)

/-- The error `Conn.Bind` returns for keys of different slots. -/
def errKeysSlot : GoError := ⟨"redisc: keys do not belong to the same slot"⟩

/-- The error `Conn.Bind` returns on a connection that was already bound. -/
def errAlreadyBound : GoError := ⟨"redisc: connection already bound to a slot"⟩

/-- The error `Conn.Close` stores in the connection. -/
def errClosed : GoError := ⟨"redisc: closed"⟩

/-- The loop of `Conn.Bind` over the keys, started with `slot`: `none` when it
returns the error early, otherwise the slot it ends with. -/
def bindLoop : Int → List Str → Option Int
  | slot, [] => some slot
  | slot, k :: keys =>
    let ks := Slot k
    if slot ≠ -1 ∧ ks ≠ slot then none
    else bindLoop ks keys

/-- The method `Conn.Bind`. -/
def Bind (env : Env) (keys : List Str) (s : St) : Option GoError × St :=
  match bindLoop (-1) keys with
  | none => (some errKeysSlot, s)
  | some slot =>
    match bind env slot s with
    | ((_, _, some err), s1) => (some err, s1)
    | ((_, false, none), s1) => (some errAlreadyBound, s1)
    | ((_, true, none), s1) => (none, s1)

/-- The method `Conn.Do`: `rc.Do(cmd, args...)` on the `rc` that `bind`
returned. -/
def Do (env : Env) (cmd : Str) (args : List Arg) (s : St) :
    Outcome (Reply × Option GoError) × St :=
  match bind env (cmdSlot cmd args) s with
  | ((_, _, some err), s1) => (.ret (.null, some err), s1)
  | ((none, _, none), s1) => (.nilPanic, s1)
  | ((some rc, _, none), s1) =>
    (.ret (env.doReply s1.trace rc cmd args),
      { s1 with trace := s1.trace ++ [.nodeDo rc cmd args] })

/-- The method `Conn.Send`. -/
def Send (env : Env) (cmd : Str) (args : List Arg) (s : St) :
    Outcome (Option GoError) × St :=
  match bind env (cmdSlot cmd args) s with
  | ((_, _, some err), s1) => (.ret (some err), s1)
  | ((none, _, none), s1) => (.nilPanic, s1)
  | ((some rc, _, none), s1) =>
    (.ret (env.sendErr s1.trace rc cmd args),
      { s1 with trace := s1.trace ++ [.nodeSend rc cmd args] })

/-- The method `Conn.Receive`. -/
def Receive (env : Env) (s : St) : Outcome (Reply × Option GoError) × St :=
  match bind env (-1) s with
  | ((_, _, some err), s1) => (.ret (.null, some err), s1)
  | ((none, _, none), s1) => (.nilPanic, s1)
  | ((some rc, _, none), s1) =>
    (.ret (env.recvReply s1.trace rc), { s1 with trace := s1.trace ++ [.nodeReceive rc] })

/-- The method `Conn.Flush`. -/
def Flush (env : Env) (s : St) : Option GoError × St :=
  match s.conn.err, s.conn.rc with
  | none, some rc => (env.flushErr s.trace rc, { s with trace := s.trace ++ [.nodeFlush rc] })
  | err, _ => (err, s)

/-- The method `Conn.Err`. -/
def Err (env : Env) (s : St) : Option GoError × St :=
  match s.conn.err, s.conn.rc with
  | none, some rc => (env.errErr s.trace rc, { s with trace := s.trace ++ [.nodeErr rc] })
  | err, _ => (err, s)

/-- The method `Conn.Close`. -/
def Close (env : Env) (s : St) : Option GoError × St :=
  match s.conn.err with
  | some e => (some e, s)
  | none =>
    let s1 : St := { s with conn := { s.conn with err := some errClosed } }
    match s1.conn.rc with
    | some rc => (env.closeErr s1.trace rc, { s1 with trace := s1.trace ++ [.nodeClose rc] })
    | none => (none, s1)

/-- A call of one of the methods of `Conn`. -/
inductive Op where
  | Bind (keys : List Str)
  | Do (cmd : Str) (args : List Arg)
  | Send (cmd : Str) (args : List Arg)
  | Receive
  | Flush
  | Err
  | Close
  deriving DecidableEq, Repr

/-- The state a method call leaves (a caller that recovers from a panic goes
on with the state the panic left). -/
def step (env : Env) (s : St) : Op → St
  | .Bind keys => (Bind env keys s).2
  | .Do cmd args => (Do env cmd args s).2
  | .Send cmd args => (Send env cmd args s).2
  | .Receive => (Receive env s).2
  | .Flush => (Flush env s).2
  | .Err => (Err env s).2
  | .Close => (Close env s).2

/-- A sequence of method calls, one after the other. -/
def run (env : Env) (s : St) (ops : List Op) : St :=
  ops.foldl (step env) s

/-- Whether an event is a request to the cluster for a node. -/
def Event.isGetConn : Event → Bool
  | .getConn _ => true
  | _ => false

/-! ## The call broker (`internal/redconn/redconn.go`) -/

/-- The duration `time.Millisecond`, in nanoseconds. -/
def millisecond : Int := 1000000

/-- The duration `time.Second`, in nanoseconds. -/
def second : Int := 1000000000

/-- The duration `time.Minute`, in nanoseconds. -/
def minute : Int := 60000000000

/-- The constant `defaultCallTimeout = time.Minute`. -/
def defaultCallTimeout : Int := minute

/-- A value reduced to the range of a Go `int64` (two's complement). -/
def wrap64 (x : Int) : Int :=
  (x + 2 ^ 63) % 2 ^ 64 - 2 ^ 63

/-- The method `Connector.Call`, from the calls made so far to the returned
error and the calls made after it. The deferred `rc.Close()` runs on every
return that follows `Pool.Get`. -/
def Call (env : Env) (uri : Str) (cp : CallPayload) (timeout : Int) (tr : List Event) :
    Option GoError × List Event :=
  match env.marshal cp with
  | .error err => (some err, tr)
  | .ok b =>
    let rc := env.poolGet tr
    let tr1 := tr ++ [.poolGet rc]
    let to0 := Int.tdiv timeout millisecond
    let to1 := if to0 = 0 then Int.tdiv defaultCallTimeout millisecond else to0
    let setArgs := [Arg.str (callTimeoutKey uri cp.MsgUUID), .int to1, .str "PX".toList, .int to1]
    let tr2 := tr1 ++ [.nodeSend rc "SET".toList setArgs]
    match env.sendErr tr1 rc "SET".toList setArgs with
    | some err => (some err, tr2 ++ [.nodeClose rc])
    | none =>
      let pushArgs := [Arg.str (callKey uri), .bytes b]
      ((env.doReply tr2 rc "LPUSH".toList pushArgs).2,
        tr2 ++ [.nodeDo rc "LPUSH".toList pushArgs, .nodeClose rc])

/-- The `case nil:` branch of the loop of `Connector.ProcessCalls`: what is
done with the values `vals` that BRPOP returned on the connection `rc`.
`b` is declared as a nil `[]byte` and handed to `redis.Scan` by value, so
whatever `Scan` does and returns, `b` is still nil when it is handed to
`json.Unmarshal`. Every `continue` ends the branch after its log line. -/
def processPulled (env : Env) (uri : Str) (rc : Node) (vals : List Item) (tr : List Event) :
    List Event :=
  let b : List Nat := []
  match env.scanSkipBytes vals with
  | some _ => tr ++ [.logf "ProcessCalls: BRPOP failed to scan redis value"]
  | none =>
    match env.unmarshal b with
    | .error _ => tr ++ [.logf "ProcessCalls: BRPOP failed to unmarshal call payload"]
    | .ok cp =>
      let toKey := callTimeoutKey uri cp.MsgUUID
      let tr1 := tr ++ [.nodeSend rc "PTTL".toList [.str toKey]]
      match env.sendErr tr rc "PTTL".toList [.str toKey] with
      | some _ => tr1 ++ [.logf "ProcessCalls: PTTL send failed"]
      | none =>
        let tr2 := tr1 ++ [.nodeDo rc "DEL".toList [.str toKey]]
        match env.values (env.doReply tr1 rc "DEL".toList [.str toKey]) with
        | .error _ => tr2 ++ [.logf "ProcessCalls: PTTL/DEL failed"]
        | .ok res =>
          match env.scanInt res with
          | .error _ => tr2 ++ [.logf "ProcessCalls: PTTL/DEL failed to scan redis value"]
          | .ok pttl =>
            if pttl ≤ 0 then tr2 ++ [.logf "ProcessCalls: message expired, dropping call"]
            else
              tr2 ++ [.chSend { cp with
                ReadTimestamp := env.now tr2
                TTLAfterRead := wrap64 (pttl * millisecond) }]

/-! ## The reconnect back-off (`expJitterDelay`) -/

/-- The `float64` values `expJitterDelay` meets on non-negative operands: a
natural number held exactly, `+Inf`, or `NaN`. Holding the number exactly is
right for the operands `ProcessCalls` passes: a power of two, `10^9 = 2^9 * 5^9`
and `6 * 10^10` and their products need far fewer than 53 significant bits. -/
inductive F64 where
  | fin (v : Nat)
  | inf
  | nan
  deriving DecidableEq, Repr

/-- The value `math.Pow(2, float64(att))` for `att ≥ 0`: the largest finite
power of two of a `float64` is `2^1023`. -/
def F64.pow2 (att : Nat) : F64 :=
  if att ≤ 1023 then .fin (2 ^ att) else .inf

/-- The `float64` product: a product of `2^1024` or more overflows to `+Inf`. -/
def F64.mul : F64 → F64 → F64
  | .fin a, .fin b => if a * b < 2 ^ 1024 then .fin (a * b) else .inf
  | .fin a, .inf => if a = 0 then .nan else .inf
  | .inf, .fin b => if b = 0 then .nan else .inf
  | .inf, .inf => .inf
  | _, _ => .nan

/-- The function `math.Min`. -/
def F64.min : F64 → F64 → F64
  | .nan, _ => .nan
  | _, .nan => .nan
  | .fin a, .fin b => .fin (Nat.min a b)
  | .fin a, .inf => .fin a
  | .inf, .fin b => .fin b
  | .inf, .inf => .inf

/-- The conversion `int64(f)`: exact in range; out of range (and for `+Inf`
and `NaN`) the amd64 result, the least `int64`. -/
def F64.toInt64 : F64 → Int
  | .fin v => if v < 2 ^ 63 then (v : Int) else -(2 ^ 63)
  | _ => -(2 ^ 63)

/-- The method `(*rand.Rand).Int63n`: it panics (`none`) for `n ≤ 0`, and
otherwise returns `raw % n` for the 63-bit value `raw` that the generator drew
(and kept). -/
def Int63n (raw : Nat) (n : Int) : Option Int :=
  if n ≤ 0 then none else some ((raw : Int) % n)

/-- The function `expJitterDelay`, for an attempt number `att` counted from 0
and non-negative durations `base` and `max`, `raw` being what the generator
draws; `none` is the panic of `Int63n`. -/
def expJitterDelay (raw : Nat) (att : Nat) (base max : Nat) : Option Int :=
  let exp := F64.pow2 att
  let top := F64.mul (.fin base) exp
  Int63n raw (F64.toInt64 (F64.min (.fin max) top))

/-! ## The upgrade handler (`server.go`) -/

/-- The variable `Subprotocols`. -/
def Subprotocols : List Str := ["juggler.0".toList]

/-- The function `isIn`. -/
def isIn : List Str → Str → Bool
  | [], _ => false
  | vv :: list, v => if vv = v then true else isIn list v

/-- Modelled from the spec: the states of a connection (the type `ConnState`
is declared in a file that is not among the sources). -/
inductive ConnState where
  | Accepting
  | Connected
  | Closing
  | Closed
  deriving DecidableEq, Repr

/-- Calls the upgrade handler makes, in the order it makes them. -/
inductive WsEvent where
  | logf (text : String)
  | wsClose
  | setReadLimit (limit : Int)
  | newConn
  | connState (st : ConnState)
  | closeNotify
  | goReceive
  | waitKill
  deriving DecidableEq, Repr

/-- The fields of `Server` the handler reads: `ReadLimit`, and whether the
callback `ConnState` is non-nil. -/
structure Server where
  ReadLimit : Int
  ConnState : Bool
  deriving DecidableEq, Repr

/-- The handler `Upgrade` returns, run to its end on the result of
`upgrader.Upgrade` (an error, or a websocket whose negotiated subprotocol is
given). It blocks at `waitKill` until the close notification of the connection;
the deferred calls run last, the latest deferred first. -/
def Upgrade (srv : Server) (upgraded : Except GoError Str) : List WsEvent :=
  match upgraded with
  | .error _ => []
  | .ok subprotocol =>
    if subprotocol = [] || !isIn Subprotocols subprotocol then
      [.logf "juggler: no supported subprotocol, closing connection", .wsClose]
    else
      [.setReadLimit srv.ReadLimit, .newConn]
        ++ (if srv.ConnState then [.connState .Connected] else [])
        ++ [.closeNotify, .goReceive, .waitKill]
        ++ (if srv.ConnState then [.connState .Closing] else [])
        ++ [.wsClose]

/-! ## A sample environment -/

/-- A sample call payload. -/
def samplePayload : CallPayload :=
  { MsgUUID := "6ba7b810-9dad-11d1-80b4-00c04fd430c8".toList
    ConnUUID := "f47ac10b-58cc-4372-a567-0e02b2c3d479".toList
    URI := "add".toList
    Args := [91, 49, 44, 50, 93]
    Timeout := 1000000000
    ReadTimestamp := 0
    TTLAfterRead := 0 }

/-- A sample environment in which every collaborator succeeds: the cluster
answers with node 7, the pool with connection 3, commands are answered `OK`,
`json.Unmarshal` rejects an empty input and `redis.Scan` reads a PTTL of
500. -/
def sampleEnv : Env :=
  { getConn := fun _ _ => .ok 7
    poolGet := fun _ => 3
    doReply := fun _ _ _ _ => (.status "OK".toList, none)
    sendErr := fun _ _ _ _ => none
    recvReply := fun _ _ => (.status "OK".toList, none)
    flushErr := fun _ _ => none
    errErr := fun _ _ => none
    closeErr := fun _ _ => none
    now := fun _ => 1700000000000000000
    marshal := fun _ => .ok [123, 125]
    unmarshal := fun b =>
      if b = [] then .error ⟨"unexpected end of JSON input"⟩ else .ok samplePayload
    values := fun _ => .ok [.int 500, .int 1]
    scanSkipBytes := fun _ => none
    scanInt := fun _ => .ok 500 }

/-- A connection as `Cluster.Get` returns it: not broken, not bound, with no
call made yet. -/
def freshSt : St :=
  { conn := { forceDial := false, err := none, rc := none }, trace := [] }

/-! ## Subscriptions (`internal/redconn/redconn.go`) -/

/-- Modelled from the spec: the payload of `msg.Sub` and `msg.Unsb` (their
package is not among the sources): `{ channel, pattern }`. -/
structure SubPayload where
  Channel : Str
  Pattern : Bool
  deriving DecidableEq, Repr

/-- Modelled from the spec: the message `msg.Sub`, of which the code reads the
payload. -/
structure Sub where
  Payload : SubPayload
  deriving DecidableEq, Repr

/-- Modelled from the spec: the message `msg.Unsb`, of which the code reads
the payload. -/
structure Unsb where
  Payload : SubPayload
  deriving DecidableEq, Repr

/-- The map `subUnsubCmds`, from the pattern flag and the subscribe flag to
the command. -/
def subUnsubCmds (pat sub : Bool) : Str :=
  match pat, sub with
  | true, true => "PSUBSCRIBE".toList
  | true, false => "PUNSUBSCRIBE".toList
  | false, true => "SUBSCRIBE".toList
  | false, false => "UNSUBSCRIBE".toList

/-- The method `Connector.subUnsub`: it takes a connection from the pool,
issues the command on it and, by the deferred `rc.Close()`, closes it. -/
def subUnsub (env : Env) (ch : Str) (pat sub : Bool) (tr : List Event) :
    Option GoError × List Event :=
  let rc := env.poolGet tr
  let tr1 := tr ++ [.poolGet rc]
  let cmd := subUnsubCmds pat sub
  ((env.doReply tr1 rc cmd [.str ch]).2, tr1 ++ [.nodeDo rc cmd [.str ch], .nodeClose rc])

/-- The method `Connector.Subscribe`. -/
def Subscribe (env : Env) (m : Sub) (tr : List Event) : Option GoError × List Event :=
  subUnsub env m.Payload.Channel m.Payload.Pattern true tr

/-- The method `Connector.Unsubscribe`. -/
def Unsubscribe (env : Env) (m : Unsb) (tr : List Event) : Option GoError × List Event :=
  subUnsub env m.Payload.Channel m.Payload.Pattern false tr

/-- The sample environment with a pool that hands out a new connection on
every `Get` (numbered by the calls made so far). -/
def freshPoolEnv : Env :=
  { sampleEnv with poolGet := fun tr => tr.length }

/-! ## The blocking timeout of `ProcessCalls` -/

/-- The constant `defaultBlockingTimeout = 5 * time.Second`. -/
def defaultBlockingTimeout : Int := 5 * second

/-- The timeout `ProcessCalls` computes before its loop, in seconds:
`int(c.BlockingTimeout / time.Second)`, replaced by the default when it is 0. -/
def brpopTimeout (blockingTimeout : Int) : Int :=
  let t := Int.tdiv blockingTimeout second
  if t = 0 then Int.tdiv defaultBlockingTimeout second else t

/-- The call `rc.Do("BRPOP", k, to)` of the loop of `ProcessCalls`, on the
connection `rc`: the reply handed to `redis.Values`, and the calls made. -/
def brpop (env : Env) (uri : Str) (blockingTimeout : Int) (rc : Node) (tr : List Event) :
    Except GoError (List Item) × List Event :=
  let k := callKey uri
  let t := brpopTimeout blockingTimeout
  (env.values (env.doReply tr rc "BRPOP".toList [.str k, .int t]),
    tr ++ [.nodeDo rc "BRPOP".toList [.str k, .int t]])

/-! ## Connection state notifications -/

/-- The states the `ConnState` callback is called with, in order. -/
def notified : List WsEvent → List ConnState
  | [] => []
  | .connState st :: rest => st :: notified rest
  | _ :: rest => notified rest

/-- Position of a state in the order Accepting, Connected, Closing, Closed. -/
def ConnState.rank : ConnState → Nat
  | .Accepting => 0
  | .Connected => 1
  | .Closing => 2
  | .Closed => 3

/-! ## Results of method calls on the cluster connection -/

/-- The error a method call on `Conn` returns (its last result), or the panic
it ends in. -/
def opResult (env : Env) (s : St) : Op → Outcome (Option GoError)
  | .Bind keys => .ret (Bind env keys s).1
  | .Do cmd args =>
    match (Do env cmd args s).1 with
    | .ret r => .ret r.2
    | .nilPanic => .nilPanic
  | .Send cmd args => (Send env cmd args s).1
  | .Receive =>
    match (Receive env s).1 with
    | .ret r => .ret r.2
    | .nilPanic => .nilPanic
  | .Flush => .ret (Flush env s).1
  | .Err => .ret (Err env s).1
  | .Close => .ret (Close env s).1

/-- The errors a sequence of method calls returns, call by call. -/
def runResults (env : Env) (s : St) : List Op → List (Outcome (Option GoError))
  | [] => []
  | op :: ops => opResult env s op :: runResults env (step env s op) ops

/-! ## The key of a command, and a payload that does not serialise -/

/-- The key that the first argument of a command stands for, in the words of
the specification ("the key (first argument) determines the slot and node") and
of the documentation of `Conn` ("the command's first parameter is assumed to be
the key"): a string is the key itself, a byte slice is the key with these bytes
(each below 128), an integer is the key of its decimal text. This is the name
the command carries to the server, to be compared with what `cmdSlot` hashes. -/
def keyOfArg : Arg → Str
  | .str s => s
  | .int i => (toString i).toList
  | .bytes b => b.map Char.ofNat

/-- The sample environment in which `json.Marshal` fails, as it does for a
payload whose raw arguments are not valid JSON. -/
def failMarshalEnv : Env :=
  { sampleEnv with marshal := fun _ => .error ⟨"json: error calling MarshalJSON"⟩ }

/-! ## Hash tags of the broker keys -/

theorem dropWhile_ne_brace (pre : Str) (x : Char) (xs : Str)
    (hpre : ∀ c ∈ pre, c ≠ x) :
    (pre ++ x :: xs).dropWhile (fun c => c != x) = x :: xs := by
  induction pre with
  | nil => simp [List.dropWhile]
  | cons a t ih =>
    have ha : a ≠ x := hpre a (List.mem_cons_self a t)
    have ht : ∀ c ∈ t, c ≠ x := fun c hc => hpre c (List.mem_cons_of_mem a hc)
    have hb : (a != x) = true := by simp [ha]
    rw [List.cons_append, List.dropWhile_cons, hb]
    simpa using ih ht

theorem takeWhile_append_brace (u rest : Str) (x : Char) :
    (u ++ x :: rest).takeWhile (fun c => c != x) = u.takeWhile (fun c => c != x) := by
  induction u with
  | nil => simp [List.takeWhile]
  | cons a t ih =>
    by_cases ha : a = x
    · simp [List.takeWhile_cons, ha]
    · have hb : (a != x) = true := by simp [ha]
      rw [List.cons_append, List.takeWhile_cons, List.takeWhile_cons, hb]
      simp [ih]

theorem takeWhile_length_le (u : Str) (p : Char → Bool) :
    (u.takeWhile p).length ≤ u.length := by
  induction u with
  | nil => simp
  | cons a t ih =>
    by_cases ha : p a = true
    · rw [List.takeWhile_cons, ha]
      simpa using ih
    · rw [List.takeWhile_cons]
      simp [ha]

/-- The hash tag of a key `pre{u}rest`, where `pre` holds no `{` and `u`
starts with a character other than `}`, is the part of `u` before its first
`}` (all of `u` when it holds none). -/
theorem hashTag_braced (pre u rest : Str) (hpre : ∀ c ∈ pre, c ≠ '{')
    (hu : u ≠ []) (hc : u.head? ≠ some '}') :
    hashTag (pre ++ '{' :: (u ++ '}' :: rest)) = u.takeWhile (fun c => c != '}') := by
  unfold hashTag
  rw [dropWhile_ne_brace pre '{' _ hpre]
  simp only [takeWhile_append_brace]
  have hlen : (u.takeWhile (fun c => c != '}')).length ≠ (u ++ '}' :: rest).length := by
    have := takeWhile_length_le u (fun c => c != '}')
    simp only [List.length_append, List.length_cons]
    omega
  have hne : u.takeWhile (fun c => c != '}') ≠ [] := by
    cases u with
    | nil => exact absurd rfl hu
    | cons a t =>
      have ha : a ≠ '}' := fun h => hc (by simp [h])
      have hb : (a != '}') = true := by simp [ha]
      rw [List.takeWhile_cons, hb]
      simp
  rw [if_neg hlen, if_neg hne]

/-- The two call keys of a URI have the same hash tag. -/
theorem hashTag_callKeys (u m : Str) (hu : u ≠ []) (hc : u.head? ≠ some '}') :
    hashTag (callKey u) = hashTag (callTimeoutKey u m) := by
  have h1 : callKey u = "juggler:calls:".toList ++ '{' :: (u ++ '}' :: []) := by
    simp [callKey]
  have h2 : callTimeoutKey u m
      = "juggler:calls:timeout:".toList ++ '{' :: (u ++ '}' :: (':' :: m)) := by
    simp [callTimeoutKey]
  rw [h1, h2, hashTag_braced _ u _ (by decide) hu hc, hashTag_braced _ u _ (by decide) hu hc]

/-- The two result keys of a connection UUID have the same hash tag. -/
theorem hashTag_resKeys (c m : Str) (hu : c ≠ []) (hc : c.head? ≠ some '}') :
    hashTag (resKey c) = hashTag (resTimeoutKey c m) := by
  have h1 : resKey c = "juggler:results:".toList ++ '{' :: (c ++ '}' :: []) := by
    simp [resKey]
  have h2 : resTimeoutKey c m
      = "juggler:results:timeout:".toList ++ '{' :: (c ++ '}' :: (':' :: m)) := by
    simp [resTimeoutKey]
  rw [h1, h2, hashTag_braced _ c _ (by decide) hu hc, hashTag_braced _ c _ (by decide) hu hc]

/-! ## C1: slot colocation -/

set_option maxRecDepth 200000 in
/-- C1, counterexample: with the empty URI (and the empty connection UUID) the
braces of the key enclose nothing, so the whole key is hashed, and the list key
and its timeout key fall into different slots. -/
theorem slot_colocation_fails_on_empty_uri :
    Slot (callKey "".toList) = 7309
      ∧ Slot (callTimeoutKey "".toList "6ba7b810-9dad-11d1-80b4-00c04fd430c8".toList) = 375
      ∧ Slot (callKey "".toList)
          ≠ Slot (callTimeoutKey "".toList "6ba7b810-9dad-11d1-80b4-00c04fd430c8".toList)
      ∧ Slot (resKey "".toList)
          ≠ Slot (resTimeoutKey "".toList "6ba7b810-9dad-11d1-80b4-00c04fd430c8".toList) := by
  decide

/-- C1, as amended: for every URI `u` that is not empty and does not start with
`}`, and every message UUID `m`, the call list key and the call timeout key
have the same hash tag (the part of `u` before its first `}`) and so the same
slot; and the same for the result keys of a connection UUID `c`. -/
theorem slot_colocation (u c m : Str) (hu : u ≠ []) (hu1 : u.head? ≠ some '}')
    (hc : c ≠ []) (hc1 : c.head? ≠ some '}') :
    Slot (callKey u) = Slot (callTimeoutKey u m)
      ∧ Slot (resKey c) = Slot (resTimeoutKey c m) := by
  unfold Slot
  rw [hashTag_callKeys u m hu hu1, hashTag_resKeys c m hc hc1]
  exact ⟨rfl, rfl⟩

/-- C1, witness: the URI `add` and a connection UUID. -/
theorem slot_colocation_witness :
    Slot (callKey "add".toList)
        = Slot (callTimeoutKey "add".toList "6ba7b810-9dad-11d1-80b4-00c04fd430c8".toList)
      ∧ Slot (resKey "f47ac10b-58cc-4372-a567-0e02b2c3d479".toList)
        = Slot (resTimeoutKey "f47ac10b-58cc-4372-a567-0e02b2c3d479".toList
            "6ba7b810-9dad-11d1-80b4-00c04fd430c8".toList) :=
  slot_colocation "add".toList "f47ac10b-58cc-4372-a567-0e02b2c3d479".toList
    "6ba7b810-9dad-11d1-80b4-00c04fd430c8".toList (by decide) (by decide) (by decide) (by decide)

/-! ## The cluster connection -/

/-- A slot is never the marker `-1`. -/
theorem Slot_ne_neg_one (k : Str) : Slot k ≠ -1 := by
  unfold Slot
  omega

/-- When the loop of `Bind` is entered with a real slot and runs to its end,
every key has that slot and the loop ends with it. -/
theorem bindLoop_of_slot (keys : List Str) (slot r : Int) (hs : slot ≠ -1)
    (h : bindLoop slot keys = some r) : r = slot ∧ ∀ k ∈ keys, Slot k = slot := by
  induction keys generalizing slot with
  | nil =>
    simp only [bindLoop, Option.some.injEq] at h
    exact ⟨h.symm, by simp⟩
  | cons k ks ih =>
    simp only [bindLoop] at h
    by_cases hk : Slot k = slot
    · have hcond : ¬ (slot ≠ -1 ∧ Slot k ≠ slot) := fun hh => hh.2 hk
      rw [if_neg hcond, hk] at h
      obtain ⟨h1, h2⟩ := ih slot hs h
      refine ⟨h1, ?_⟩
      intro k1 hk1
      rcases List.mem_cons.mp hk1 with rfl | hmem
      · exact hk
      · exact h2 k1 hmem
    · rw [if_pos ⟨hs, hk⟩] at h
      exact absurd h (by simp)

/-- When the loop of `Bind` runs to its end, all keys have one slot. -/
theorem bindLoop_same_slot (keys : List Str) (r : Int) (h : bindLoop (-1) keys = some r) :
    ∀ k1 ∈ keys, ∀ k2 ∈ keys, Slot k1 = Slot k2 := by
  cases keys with
  | nil => simp
  | cons k ks =>
    simp only [bindLoop] at h
    have hcond : ¬ ((-1 : Int) ≠ -1 ∧ Slot k ≠ -1) := fun hh => hh.1 rfl
    rw [if_neg hcond] at h
    obtain ⟨_, h2⟩ := bindLoop_of_slot ks (Slot k) r (Slot_ne_neg_one k) h
    have hall : ∀ x ∈ k :: ks, Slot x = Slot k := by
      intro x hx
      rcases List.mem_cons.mp hx with rfl | hmem
      · rfl
      · exact h2 x hmem
    intro k1 hk1 k2 hk2
    rw [hall k1 hk1, hall k2 hk2]

/-- A method call on a bound connection leaves it bound to the same node
and adds no request to the cluster. -/
theorem step_bound (env : Env) (s : St) (n : Node) (op : Op) (h : s.conn.rc = some n) :
    (step env s op).conn.rc = some n
      ∧ ∃ extra, (step env s op).trace = s.trace ++ extra
          ∧ ∀ e ∈ extra, e.isGetConn = false := by
  obtain ⟨⟨fd, err, rc⟩, tr⟩ := s
  simp only at h
  subst h
  cases op with
  | Bind keys =>
    cases hl : bindLoop (-1) keys <;> cases err <;>
      exact ⟨by simp [step, Bind, bind, hl], [], by simp [step, Bind, bind, hl], by simp⟩
  | Do cmd args =>
    cases err
    · exact ⟨by simp [step, Do, bind], [.nodeDo n cmd args], by simp [step, Do, bind],
        by simp [Event.isGetConn]⟩
    · exact ⟨by simp [step, Do, bind], [], by simp [step, Do, bind], by simp⟩
  | Send cmd args =>
    cases err
    · exact ⟨by simp [step, Send, bind], [.nodeSend n cmd args], by simp [step, Send, bind],
        by simp [Event.isGetConn]⟩
    · exact ⟨by simp [step, Send, bind], [], by simp [step, Send, bind], by simp⟩
  | Receive =>
    cases err
    · exact ⟨by simp [step, Receive, bind], [.nodeReceive n], by simp [step, Receive, bind],
        by simp [Event.isGetConn]⟩
    · exact ⟨by simp [step, Receive, bind], [], by simp [step, Receive, bind], by simp⟩
  | Flush =>
    cases err
    · exact ⟨by simp [step, Flush], [.nodeFlush n], by simp [step, Flush],
        by simp [Event.isGetConn]⟩
    · exact ⟨by simp [step, Flush], [], by simp [step, Flush], by simp⟩
  | Err =>
    cases err
    · exact ⟨by simp [step, Err], [.nodeErr n], by simp [step, Err],
        by simp [Event.isGetConn]⟩
    · exact ⟨by simp [step, Err], [], by simp [step, Err], by simp⟩
  | Close =>
    cases err
    · exact ⟨by simp [step, Close], [.nodeClose n], by simp [step, Close],
        by simp [Event.isGetConn]⟩
    · exact ⟨by simp [step, Close], [], by simp [step, Close], by simp⟩

/-! ## C2: first use -/

/-- C2: on a connection that is not broken and not bound, for which the cluster
yields the node `n`, `bind` stores `n` in the connection but returns the `rc`
it read before binding, which is nil, with `ok = true` and a nil error; `Do`,
`Send` and `Receive` then call a method through that nil value and panic: the
connection is left bound to `n` and nothing is forwarded to `n`. -/
theorem first_use_returns_nil_rc (env : Env) (s : St) (cmd : Str) (args : List Arg) (n : Node)
    (herr : s.conn.err = none) (hrc : s.conn.rc = none)
    (hget : env.getConn s.trace (cmdSlot cmd args) = .ok n)
    (hany : env.getConn s.trace (-1) = .ok n) :
    (bind env (cmdSlot cmd args) s).1 = (none, true, none)
      ∧ (bind env (cmdSlot cmd args) s).2.conn.rc = some n
      ∧ Do env cmd args s
          = (.nilPanic, { conn := { s.conn with rc := some n },
                          trace := s.trace ++ [.getConn (cmdSlot cmd args)] })
      ∧ Send env cmd args s
          = (.nilPanic, { conn := { s.conn with rc := some n },
                          trace := s.trace ++ [.getConn (cmdSlot cmd args)] })
      ∧ Receive env s
          = (.nilPanic, { conn := { s.conn with rc := some n },
                          trace := s.trace ++ [.getConn (-1)] }) := by
  simp [bind, Do, Send, Receive, herr, hrc, hget, hany]

/-- C2, witness: `GET k` as the first call on a fresh connection, the cluster
answering with node 7. -/
theorem first_use_returns_nil_rc_witness :
    (bind sampleEnv (cmdSlot "GET".toList [.str "k".toList]) freshSt).1 = (none, true, none)
      ∧ (bind sampleEnv (cmdSlot "GET".toList [.str "k".toList]) freshSt).2.conn.rc = some 7
      ∧ Do sampleEnv "GET".toList [.str "k".toList] freshSt
          = (.nilPanic, { conn := { freshSt.conn with rc := some 7 },
                          trace := freshSt.trace
                            ++ [.getConn (cmdSlot "GET".toList [.str "k".toList])] })
      ∧ Send sampleEnv "GET".toList [.str "k".toList] freshSt
          = (.nilPanic, { conn := { freshSt.conn with rc := some 7 },
                          trace := freshSt.trace
                            ++ [.getConn (cmdSlot "GET".toList [.str "k".toList])] })
      ∧ Receive sampleEnv freshSt
          = (.nilPanic, { conn := { freshSt.conn with rc := some 7 },
                          trace := freshSt.trace ++ [.getConn (-1)] }) :=
  first_use_returns_nil_rc sampleEnv freshSt "GET".toList [.str "k".toList] 7 rfl rfl rfl rfl

/-! ## C3: node selection -/

/-- What the methods ask the cluster for, in terms of `cmdSlot`: `cmdSlot` is
the marker `-1` for an empty argument list and otherwise the slot of the first
argument formatted with `%v`; on a connection that is not
broken and not bound, the first thing `Do` and `Send` do is ask the cluster for
a node of that slot, and the first thing `Receive` does is ask for a node of
the marker `-1`. -/
theorem node_selection_rule (env : Env) (s : St) (cmd : Str) (args : List Arg)
    (herr : s.conn.err = none) (hrc : s.conn.rc = none) :
    cmdSlot cmd [] = -1
      ∧ (∀ a rest, cmdSlot cmd (a :: rest) = Slot (sprintV a))
      ∧ (∃ rest, (Do env cmd args s).2.trace
            = s.trace ++ Event.getConn (cmdSlot cmd args) :: rest)
      ∧ (∃ rest, (Send env cmd args s).2.trace
            = s.trace ++ Event.getConn (cmdSlot cmd args) :: rest)
      ∧ (∃ rest, (Receive env s).2.trace = s.trace ++ Event.getConn (-1) :: rest) := by
  refine ⟨rfl, fun _ _ => rfl, ?_, ?_, ?_⟩
  · cases hg : env.getConn s.trace (cmdSlot cmd args) <;>
      exact ⟨[], by simp [Do, bind, herr, hrc, hg]⟩
  · cases hg : env.getConn s.trace (cmdSlot cmd args) <;>
      exact ⟨[], by simp [Send, bind, herr, hrc, hg]⟩
  · cases hg : env.getConn s.trace (-1) <;>
      exact ⟨[], by simp [Receive, bind, herr, hrc, hg]⟩

/-- The requests of `SET k 1` on a fresh connection. -/
theorem node_selection_rule_witness :
    cmdSlot "SET".toList [] = -1
      ∧ (∀ a rest, cmdSlot "SET".toList (a :: rest) = Slot (sprintV a))
      ∧ (∃ rest, (Do sampleEnv "SET".toList [.str "k".toList, .int 1] freshSt).2.trace
            = freshSt.trace
                ++ Event.getConn (cmdSlot "SET".toList [.str "k".toList, .int 1]) :: rest)
      ∧ (∃ rest, (Send sampleEnv "SET".toList [.str "k".toList, .int 1] freshSt).2.trace
            = freshSt.trace
                ++ Event.getConn (cmdSlot "SET".toList [.str "k".toList, .int 1]) :: rest)
      ∧ (∃ rest, (Receive sampleEnv freshSt).2.trace
            = freshSt.trace ++ Event.getConn (-1) :: rest) :=
  node_selection_rule sampleEnv freshSt "SET".toList [.str "k".toList, .int 1] rfl rfl

set_option maxRecDepth 200000 in
/-- C3: the key `k` handed to `Do` or `Send` as a byte slice is formatted by
`cmdSlot` with `%v` into the text `[107]`, so the node requested is that of
slot 12655 and not that of slot 7629, the slot of the key `k`; the same key
handed over as a string does request slot 7629. With no argument `Do` and
`Send` request the marker `-1`, and so does `Receive`. -/
theorem cmdSlot_of_byte_slice_is_not_slot_of_key :
    keyOfArg (.bytes [107]) = "k".toList
      ∧ Slot (keyOfArg (.bytes [107])) = 7629
      ∧ sprintV (.bytes [107]) = "[107]".toList
      ∧ cmdSlot "GET".toList [.bytes [107]] = 12655
      ∧ cmdSlot "GET".toList [.bytes [107]] ≠ Slot (keyOfArg (.bytes [107]))
      ∧ (Do sampleEnv "GET".toList [.bytes [107]] freshSt).2.trace = [.getConn 12655]
      ∧ (Send sampleEnv "GET".toList [.bytes [107]] freshSt).2.trace = [.getConn 12655]
      ∧ cmdSlot "GET".toList [.str "k".toList] = 7629
      ∧ (Do sampleEnv "GET".toList [.str "k".toList] freshSt).2.trace = [.getConn 7629]
      ∧ (Do sampleEnv "PING".toList [] freshSt).2.trace = [.getConn (-1)]
      ∧ (Receive sampleEnv freshSt).2.trace = [.getConn (-1)] := by
  decide

/-! ## C4: keys of different slots -/

/-- C4: when two of the keys have different slots, `Bind` returns the error
"keys do not belong to the same slot" and leaves the connection and the trace
exactly as they were: the connection is as bound or unbound as before and the
cluster is not asked for a node. -/
theorem Bind_rejects_keys_of_different_slots (env : Env) (keys : List Str) (s : St)
    (h : ∃ k1 ∈ keys, ∃ k2 ∈ keys, Slot k1 ≠ Slot k2) :
    Bind env keys s = (some errKeysSlot, s) := by
  cases hl : bindLoop (-1) keys with
  | none => simp [Bind, hl]
  | some r =>
    obtain ⟨k1, hk1, k2, hk2, hne⟩ := h
    exact absurd (bindLoop_same_slot keys r hl k1 hk1 k2 hk2) hne

set_option maxRecDepth 100000 in
/-- C4, witness: the keys `a` (slot 15495) and `b` (slot 3300) on a fresh
connection. -/
theorem Bind_rejects_keys_of_different_slots_witness :
    (∃ k1 ∈ ["a".toList, "b".toList], ∃ k2 ∈ ["a".toList, "b".toList], Slot k1 ≠ Slot k2)
      ∧ Bind sampleEnv ["a".toList, "b".toList] freshSt = (some errKeysSlot, freshSt) :=
  ⟨⟨"a".toList, by simp, "b".toList, by simp, by decide⟩,
    Bind_rejects_keys_of_different_slots sampleEnv ["a".toList, "b".toList] freshSt
      ⟨"a".toList, by simp, "b".toList, by simp, by decide⟩⟩

/-! ## C5: an already bound connection -/

/-- C5: on a connection bound to a node, `Bind` returns a non-nil error for
every list of keys, and leaves the connection (its binding included) and the
trace as they were. -/
theorem Bind_rejects_bound_connection (env : Env) (keys : List Str) (s : St) (n : Node)
    (h : s.conn.rc = some n) :
    ∃ e, Bind env keys s = (some e, s) := by
  obtain ⟨⟨fd, err, rc⟩, tr⟩ := s
  simp only at h
  subst h
  cases hl : bindLoop (-1) keys <;> cases err <;> simp [Bind, bind, hl]

/-- C5, witness: a connection bound to node 7 and two keys of one slot. -/
theorem Bind_rejects_bound_connection_witness :
    ∃ e, Bind sampleEnv ["\x7bu\x7da".toList, "\x7bu\x7db".toList]
        { conn := { forceDial := false, err := none, rc := some 7 }, trace := [] }
      = (some e, { conn := { forceDial := false, err := none, rc := some 7 }, trace := [] }) :=
  Bind_rejects_bound_connection sampleEnv ["\x7bu\x7da".toList, "\x7bu\x7db".toList]
    { conn := { forceDial := false, err := none, rc := some 7 }, trace := [] } 7 rfl

/-! ## C6: binding is irrevocable -/

/-- C6: once a connection is bound to a node `n`, every sequence of `Bind`,
`Do`, `Send`, `Receive`, `Flush`, `Err` and `Close` calls leaves it bound to
`n`, and none of the calls made during the sequence asks the cluster for a
node. -/
theorem binding_irrevocable (env : Env) (ops : List Op) (s : St) (n : Node)
    (h : s.conn.rc = some n) :
    (run env s ops).conn.rc = some n
      ∧ ∃ extra, (run env s ops).trace = s.trace ++ extra
          ∧ ∀ e ∈ extra, e.isGetConn = false := by
  induction ops generalizing s with
  | nil => exact ⟨h, [], by simp [run], by simp⟩
  | cons op ops ih =>
    obtain ⟨h1, x1, hx1, hx1g⟩ := step_bound env s n op h
    obtain ⟨h2, x2, hx2, hx2g⟩ := ih (step env s op) h1
    refine ⟨by simpa [run] using h2, x1 ++ x2, ?_, ?_⟩
    · have : (run env s (op :: ops)).trace = (run env (step env s op) ops).trace := by
        simp [run]
      rw [this, hx2, hx1, List.append_assoc]
    · intro e he
      rcases List.mem_append.mp he with he1 | he2
      · exact hx1g e he1
      · exact hx2g e he2

/-- C6, witness: a connection bound to node 7, then `Do`, `Bind`, `Receive`,
`Close` and `Do` again. -/
theorem binding_irrevocable_witness :
    (run sampleEnv { conn := { forceDial := false, err := none, rc := some 7 }, trace := [] }
        [.Do "GET".toList [.str "k".toList], .Bind ["other".toList], .Receive, .Close,
          .Do "GET".toList [.str "k".toList]]).conn.rc = some 7
      ∧ ∃ extra,
        (run sampleEnv { conn := { forceDial := false, err := none, rc := some 7 }, trace := [] }
          [.Do "GET".toList [.str "k".toList], .Bind ["other".toList], .Receive, .Close,
            .Do "GET".toList [.str "k".toList]]).trace
          = ({ conn := { forceDial := false, err := none, rc := some 7 }, trace := [] } : St).trace
              ++ extra
          ∧ ∀ e ∈ extra, e.isGetConn = false :=
  binding_irrevocable sampleEnv
    [.Do "GET".toList [.str "k".toList], .Bind ["other".toList], .Receive, .Close,
      .Do "GET".toList [.str "k".toList]]
    { conn := { forceDial := false, err := none, rc := some 7 }, trace := [] } 7 rfl

/-! ## C7: enqueueing a call -/

/-- The timeout `Call` hands to SET for a timeout of `t ≥ 1` whole
milliseconds is `t`. -/
theorem call_timeout_ms (t : Int) (ht : 1 ≤ t) :
    (if Int.tdiv (t * millisecond) millisecond = 0
      then Int.tdiv defaultCallTimeout millisecond
      else Int.tdiv (t * millisecond) millisecond) = t := by
  have hms : millisecond ≠ 0 := by decide
  rw [Int.mul_tdiv_cancel t hms]
  have ht0 : t ≠ 0 := by omega
  rw [if_neg ht0]

/-- C7: for a payload that serialises to `b` and a timeout of `t ≥ 1` whole
milliseconds, `Call` takes one connection `rc` from the pool and, when queuing
the SET succeeds, issues on `rc` exactly `SET juggler:calls:timeout:{u}:m t PX t`
and then `LPUSH juggler:calls:{u} b`, returning the error of the LPUSH; when
queuing the SET fails with `e`, it issues no LPUSH and returns `e`. In both
cases `rc` is closed last. -/
theorem Call_enqueue (env : Env) (uri : Str) (cp : CallPayload) (t : Int) (b : List Nat)
    (tr : List Event) (hm : env.marshal cp = .ok b) (ht : 1 ≤ t) :
    (env.sendErr (tr ++ [.poolGet (env.poolGet tr)]) (env.poolGet tr) "SET".toList
          [.str (callTimeoutKey uri cp.MsgUUID), .int t, .str "PX".toList, .int t] = none →
        Call env uri cp (t * millisecond) tr
          = ((env.doReply
                (tr ++ [.poolGet (env.poolGet tr)] ++ [.nodeSend (env.poolGet tr) "SET".toList
                  [.str (callTimeoutKey uri cp.MsgUUID), .int t, .str "PX".toList, .int t]])
                (env.poolGet tr) "LPUSH".toList [.str (callKey uri), .bytes b]).2,
             tr ++ [.poolGet (env.poolGet tr)]
               ++ [.nodeSend (env.poolGet tr) "SET".toList
                    [.str (callTimeoutKey uri cp.MsgUUID), .int t, .str "PX".toList, .int t]]
               ++ [.nodeDo (env.poolGet tr) "LPUSH".toList [.str (callKey uri), .bytes b],
                   .nodeClose (env.poolGet tr)]))
      ∧ (∀ e, env.sendErr (tr ++ [.poolGet (env.poolGet tr)]) (env.poolGet tr) "SET".toList
          [.str (callTimeoutKey uri cp.MsgUUID), .int t, .str "PX".toList, .int t] = some e →
        Call env uri cp (t * millisecond) tr
          = (some e,
             tr ++ [.poolGet (env.poolGet tr)]
               ++ [.nodeSend (env.poolGet tr) "SET".toList
                    [.str (callTimeoutKey uri cp.MsgUUID), .int t, .str "PX".toList, .int t]]
               ++ [.nodeClose (env.poolGet tr)])) := by
  have hto := call_timeout_ms t ht
  constructor
  · intro hs
    simp only [Call, hm, hto, hs]
  · intro e hs
    simp only [Call, hm, hto, hs]

/-- C7, witness: the sample payload on the URI `add` with a timeout of 1000
milliseconds, in the sample environment, where queuing the SET succeeds. -/
theorem Call_enqueue_witness :
    Call sampleEnv "add".toList samplePayload (1000 * millisecond) []
      = (none,
         [.poolGet 3,
          .nodeSend 3 "SET".toList
            [.str "juggler:calls:timeout:\x7badd\x7d:6ba7b810-9dad-11d1-80b4-00c04fd430c8".toList,
             .int 1000, .str "PX".toList, .int 1000],
          .nodeDo 3 "LPUSH".toList [.str "juggler:calls:\x7badd\x7d".toList, .bytes [123, 125]],
          .nodeClose 3]) :=
  (Call_enqueue sampleEnv "add".toList samplePayload 1000 [123, 125] [] rfl (by decide)).1 rfl

/-! ## C8: the expiry decision on dequeue -/

/-- C8: whatever BRPOP returned and whatever PTTL the timeout key has, when
`json.Unmarshal` rejects an empty input (as it does), the branch of
`ProcessCalls` that handles a pulled payload only writes a log line: nothing
is sent on the channel and neither PTTL nor DEL is issued for the timeout
key. -/
theorem processPulled_only_logs (env : Env) (uri : Str) (rc : Node) (vals : List Item)
    (tr : List Event) (e : GoError) (hu : env.unmarshal [] = .error e) :
    ∃ text, processPulled env uri rc vals tr = tr ++ [.logf text] := by
  unfold processPulled
  cases hs : env.scanSkipBytes vals with
  | some e1 => exact ⟨_, rfl⟩
  | none => simp only [hu]; exact ⟨_, rfl⟩

/-- C8, witness: BRPOP returned the list key and a payload, and the sample
environment would read a PTTL of 500 for the timeout key. -/
theorem processPulled_only_logs_witness :
    ∃ text, processPulled sampleEnv "add".toList 3
        [.bulk [106], .bulk [123, 125]] [] = [] ++ [.logf text] :=
  processPulled_only_logs sampleEnv "add".toList 3 [.bulk [106], .bulk [123, 125]] []
    ⟨"unexpected end of JSON input"⟩ rfl

/-! ## C9: the back-off window -/

set_option exponentiation.threshold 2048 in
/-- The bound `expJitterDelay` hands to `Int63n` for a base of one second and
a maximum of one minute is `min(max, base * 2^att)`. -/
theorem backoff_bound (att : Nat) :
    F64.toInt64 (F64.min (.fin 60000000000) (F64.mul (.fin 1000000000) (F64.pow2 att)))
      = min minute (second * 2 ^ att) := by
  have hmin : Nat.min 60000000000 (1000000000 * 2 ^ att) < 2 ^ 63 :=
    lt_of_le_of_lt (Nat.min_le_left _ _) (by norm_num)
  have hcast : ((Nat.min 60000000000 (1000000000 * 2 ^ att) : Nat) : Int)
      = min minute (second * 2 ^ att) := by
    unfold minute second
    have : Nat.min 60000000000 (1000000000 * 2 ^ att)
        = min 60000000000 (1000000000 * 2 ^ att) := rfl
    rw [this]
    push_cast
    rfl
  have hbig : (2 : Nat) ^ 1024 ≤ 1000000000 * 2 ^ att →
      min minute (second * 2 ^ att) = 60000000000 := by
    intro h
    have h1 : (60000000000 : Nat) ≤ 1000000000 * 2 ^ att :=
      le_trans (by norm_num) h
    have h2 : (60000000000 : Int) ≤ 1000000000 * 2 ^ att := by exact_mod_cast h1
    unfold minute second
    exact min_eq_left h2
  unfold F64.pow2
  by_cases hatt : att ≤ 1023
  · rw [if_pos hatt]
    by_cases hprod : 1000000000 * 2 ^ att < 2 ^ 1024
    · simp only [F64.mul, if_pos hprod, F64.min, F64.toInt64, if_pos hmin]
      exact hcast
    · simp only [F64.mul, if_neg hprod, F64.min, F64.toInt64]
      rw [hbig (Nat.le_of_not_lt hprod)]
      norm_num
  · rw [if_neg hatt]
    have h1024 : 1024 ≤ att := by omega
    have hle : (2 : Nat) ^ 1024 ≤ 2 ^ att := Nat.pow_le_pow_right (by decide) h1024
    have : (2 : Nat) ^ 1024 ≤ 1000000000 * 2 ^ att := by
      calc (2 : Nat) ^ 1024 ≤ 2 ^ att := hle
        _ ≤ 1000000000 * 2 ^ att := Nat.le_mul_of_pos_left _ (by decide)
    simp only [F64.mul, F64.min, F64.toInt64]
    rw [hbig this]
    norm_num

/-- C9: for every attempt number `att ≥ 0` and every value `raw` the generator
may draw, with a base of one second and a maximum of one minute the bound
handed to `Int63n` is `min(max, base * 2^att)`, which is positive, and
`expJitterDelay` returns a duration `d` with `0 ≤ d < min(max, base * 2^att)`. -/
theorem expJitterDelay_window (att raw : Nat) :
    0 < F64.toInt64 (F64.min (.fin 60000000000) (F64.mul (.fin 1000000000) (F64.pow2 att)))
      ∧ ∃ d, expJitterDelay raw att 1000000000 60000000000 = some d
          ∧ 0 ≤ d ∧ d < min minute (second * 2 ^ att) := by
  have hpos : 0 < min minute (second * 2 ^ att) := by
    have h2 : (0 : Int) < 2 ^ att := by positivity
    have h1 : (0 : Int) < second * 2 ^ att := Int.mul_pos (by decide) h2
    exact lt_min (by decide) h1
  refine ⟨by rw [backoff_bound]; exact hpos, (raw : Int) % min minute (second * 2 ^ att), ?_,
    Int.emod_nonneg _ (ne_of_gt hpos), Int.emod_lt_of_pos _ hpos⟩
  unfold expJitterDelay
  simp only [backoff_bound, Int63n]
  rw [if_neg (not_le.mpr hpos)]

/-! ## C10: the subprotocol gate -/

/-- The only member of `Subprotocols` is `juggler.0`. -/
theorem isIn_Subprotocols (s : Str) : isIn Subprotocols s = true ↔ s = "juggler.0".toList := by
  simp only [Subprotocols, isIn]
  constructor
  · intro h
    by_contra hne
    rw [if_neg (fun h2 => hne h2.symm)] at h
    exact absurd h (by decide)
  · intro h
    rw [if_pos h.symm]

/-- C10: for every negotiated subprotocol `s`, the handler creates the juggler
connection and starts the receive flow exactly when `s` is in `Subprotocols`,
that is when `s` is `juggler.0`; it then notifies `ConnState` (when the
callback is set) of `Connected` before the receive flow starts. For every
other `s`, the empty string included, it only logs and closes the websocket:
no connection is created, `ConnState` is not notified and no receive flow is
started. -/
theorem upgrade_gate (srv : Server) (s : Str) :
    (isIn Subprotocols s = true ↔ s = "juggler.0".toList)
      ∧ ((WsEvent.newConn ∈ Upgrade srv (.ok s) ∧ WsEvent.goReceive ∈ Upgrade srv (.ok s))
          ↔ s = "juggler.0".toList)
      ∧ (s = "juggler.0".toList →
          Upgrade srv (.ok s)
            = [.setReadLimit srv.ReadLimit, .newConn]
                ++ (if srv.ConnState then [.connState .Connected] else [])
                ++ [.closeNotify, .goReceive, .waitKill]
                ++ (if srv.ConnState then [.connState .Closing] else [])
                ++ [.wsClose])
      ∧ (s ≠ "juggler.0".toList →
          Upgrade srv (.ok s)
            = [.logf "juggler: no supported subprotocol, closing connection", .wsClose]) := by
  have hin := isIn_Subprotocols s
  have hyes : s = "juggler.0".toList →
      Upgrade srv (.ok s)
        = [.setReadLimit srv.ReadLimit, .newConn]
            ++ (if srv.ConnState then [.connState .Connected] else [])
            ++ [.closeNotify, .goReceive, .waitKill]
            ++ (if srv.ConnState then [.connState .Closing] else [])
            ++ [.wsClose] := by
    intro h
    have h1 : isIn Subprotocols s = true := hin.mpr h
    have h2 : s ≠ [] := by rw [h]; decide
    simp [Upgrade, h1, h2]
  have hno : s ≠ "juggler.0".toList →
      Upgrade srv (.ok s)
        = [.logf "juggler: no supported subprotocol, closing connection", .wsClose] := by
    intro h
    have h1 : isIn Subprotocols s = false := by
      cases hb : isIn Subprotocols s with
      | false => rfl
      | true => exact absurd (hin.mp hb) h
    simp [Upgrade, h1]
  refine ⟨hin, ?_, hyes, hno⟩
  constructor
  · intro hmem
    by_contra hne
    rw [hno hne] at hmem
    simp at hmem
  · intro h
    rw [hyes h]
    simp

/-- C10, witness: with the callback set, `juggler.0` is served and `test` is
refused. -/
theorem upgrade_gate_witness :
    Upgrade { ReadLimit := 0, ConnState := true } (.ok "juggler.0".toList)
        = [.setReadLimit 0, .newConn, .connState .Connected, .closeNotify, .goReceive,
            .waitKill, .connState .Closing, .wsClose]
      ∧ Upgrade { ReadLimit := 0, ConnState := true } (.ok "test".toList)
        = [.logf "juggler: no supported subprotocol, closing connection", .wsClose]
      ∧ Upgrade { ReadLimit := 0, ConnState := true } (.ok "".toList)
        = [.logf "juggler: no supported subprotocol, closing connection", .wsClose] :=
  ⟨(upgrade_gate { ReadLimit := 0, ConnState := true } "juggler.0".toList).2.2.1 rfl,
   (upgrade_gate { ReadLimit := 0, ConnState := true } "test".toList).2.2.2 (by decide),
   (upgrade_gate { ReadLimit := 0, ConnState := true } "".toList).2.2.2 (by decide)⟩

/-! ## C11: subscriptions and their upstream connection -/

/-- C11: with a pool that hands out a new connection on every `Get`, a
`Subscribe` to the channel `c` followed by an `Unsubscribe` from it issues
SUBSCRIBE on connection 0, closes that connection, and issues UNSUBSCRIBE on
connection 3: the two commands do not go to the same upstream connection. -/
theorem subscribe_unsubscribe_use_two_connections :
    (Subscribe freshPoolEnv ⟨⟨"c".toList, false⟩⟩ []).2
        = [.poolGet 0, .nodeDo 0 "SUBSCRIBE".toList [.str "c".toList], .nodeClose 0]
      ∧ (Unsubscribe freshPoolEnv ⟨⟨"c".toList, false⟩⟩
            (Subscribe freshPoolEnv ⟨⟨"c".toList, false⟩⟩ []).2).2
        = [.poolGet 0, .nodeDo 0 "SUBSCRIBE".toList [.str "c".toList], .nodeClose 0,
           .poolGet 3, .nodeDo 3 "UNSUBSCRIBE".toList [.str "c".toList], .nodeClose 3]
      ∧ (Subscribe freshPoolEnv ⟨⟨"c".toList, false⟩⟩
            (Subscribe freshPoolEnv ⟨⟨"c".toList, false⟩⟩ []).2).2
        = [.poolGet 0, .nodeDo 0 "SUBSCRIBE".toList [.str "c".toList], .nodeClose 0,
           .poolGet 3, .nodeDo 3 "SUBSCRIBE".toList [.str "c".toList], .nodeClose 3] := by
  refine ⟨?_, ?_, ?_⟩ <;> rfl

/-! ## C12: the blocking timeout of BRPOP -/

/-- C12, counterexample: for a `BlockingTimeout` of 500 milliseconds the
timeout passed to BRPOP is the default of 5 seconds, which is longer than
`BlockingTimeout`. -/
theorem brpop_timeout_exceeds_half_second :
    0 < (500000000 : Int)
      ∧ (brpop sampleEnv "add".toList 500000000 3 []).2
          = [.nodeDo 3 "BRPOP".toList [.str (callKey "add".toList), .int 5]]
      ∧ brpopTimeout 500000000 = 5
      ∧ ¬ (brpopTimeout 500000000 * second ≤ 500000000) := by
  refine ⟨by decide, rfl, rfl, by decide⟩

/-- C12, as amended: for every positive `BlockingTimeout`, the command
`ProcessCalls` issues is `BRPOP juggler:calls:{u} to` with `to` a positive
number of seconds; `to` seconds are no longer than `BlockingTimeout` when
`BlockingTimeout` is at least one second. -/
theorem brpop_timeout_bounded (env : Env) (uri : Str) (blockingTimeout : Int) (rc : Node)
    (tr : List Event) (hpos : 0 < blockingTimeout) :
    (brpop env uri blockingTimeout rc tr).2
        = tr ++ [.nodeDo rc "BRPOP".toList [.str (callKey uri), .int (brpopTimeout blockingTimeout)]]
      ∧ 0 < brpopTimeout blockingTimeout
      ∧ (second ≤ blockingTimeout → brpopTimeout blockingTimeout * second ≤ blockingTimeout) := by
  have hdiv : Int.tdiv blockingTimeout second = blockingTimeout / 1000000000 :=
    Int.tdiv_eq_ediv (le_of_lt hpos) (by decide)
  have hdef : Int.tdiv defaultBlockingTimeout second = 5 := by decide
  refine ⟨rfl, ?_, ?_⟩
  · simp only [brpopTimeout, hdiv, hdef]
    split <;> omega
  · intro hge
    simp only [brpopTimeout, hdiv, hdef, second] at *
    split <;> omega

/-- C12, witness: a `BlockingTimeout` of one and a half seconds gives a BRPOP
timeout of one second. -/
theorem brpop_timeout_bounded_witness :
    (brpop sampleEnv "add".toList 1500000000 3 []).2
        = [] ++ [.nodeDo 3 "BRPOP".toList
            [.str (callKey "add".toList), .int (brpopTimeout 1500000000)]]
      ∧ 0 < brpopTimeout 1500000000
      ∧ (second ≤ 1500000000 → brpopTimeout 1500000000 * second ≤ 1500000000) :=
  brpop_timeout_bounded sampleEnv "add".toList 1500000000 3 [] (by decide)

/-! ## C13 and C14: connection state notifications -/

/-- The calls of the handler for the subprotocol `juggler.0`. -/
theorem Upgrade_served (srv : Server) (s : Str) (hs : s = "juggler.0".toList) :
    Upgrade srv (.ok s)
      = [.setReadLimit srv.ReadLimit, .newConn]
          ++ (if srv.ConnState then [.connState .Connected] else [])
          ++ [.closeNotify, .goReceive, .waitKill]
          ++ (if srv.ConnState then [.connState .Closing] else [])
          ++ [.wsClose] := by
  have h1 : isIn Subprotocols s = true := (isIn_Subprotocols s).mpr hs
  have h2 : s ≠ [] := by rw [hs]; decide
  simp [Upgrade, h1, h2]

/-- The handler notifies nothing for a subprotocol that is not served, and it
notifies nothing when upgrading failed. -/
theorem notified_refused (srv : Server) (upgraded : Except GoError Str)
    (h : upgraded ≠ .ok "juggler.0".toList) : notified (Upgrade srv upgraded) = [] := by
  cases upgraded with
  | error e => simp [Upgrade, notified]
  | ok sub =>
    have hne : sub ≠ "juggler.0".toList := fun hs => h (by rw [hs])
    have hin : isIn Subprotocols sub = false := by
      cases hb : isIn Subprotocols sub with
      | false => rfl
      | true =>
        simp only [Subprotocols, isIn] at hb
        by_cases hs : "juggler.0".toList = sub
        · exact absurd hs.symm hne
        · rw [if_neg hs] at hb
          exact absurd hb (by decide)
    simp [Upgrade, hin, notified]

/-- C13: for a served connection (subprotocol `juggler.0`) with the callback
set, whose websocket is then closed, the calls the handler of `Upgrade` itself
makes to `ConnState` are one with `Connected`, before the receive flow is
started, and one with `Closing`, after the close notification and before the
websocket is closed: its first call is not with `Accepting`, and it makes no
call with `Closed`. -/
theorem served_connection_not_notified_of_accepting :
    Upgrade { ReadLimit := 0, ConnState := true } (.ok "juggler.0".toList)
        = [.setReadLimit 0, .newConn, .connState .Connected, .closeNotify, .goReceive,
            .waitKill, .connState .Closing, .wsClose]
      ∧ notified (Upgrade { ReadLimit := 0, ConnState := true } (.ok "juggler.0".toList))
        = [.Connected, .Closing]
      ∧ (notified (Upgrade { ReadLimit := 0, ConnState := true }
            (.ok "juggler.0".toList))).head? ≠ some .Accepting
      ∧ ConnState.Accepting
          ∉ notified (Upgrade { ReadLimit := 0, ConnState := true } (.ok "juggler.0".toList))
      ∧ ConnState.Closed
          ∉ notified (Upgrade { ReadLimit := 0, ConnState := true } (.ok "juggler.0".toList)) := by
  decide

/-- The calls of the handler for every served connection with a `ConnState`
callback set: `Connected` is notified first, before the receive flow is
started, and then, once the close notification of the connection has been
observed, `Closing`; the websocket is closed after that. -/
theorem served_connection_notifications (srv : Server) (hset : srv.ConnState = true) :
    Upgrade srv (.ok "juggler.0".toList)
        = [.setReadLimit srv.ReadLimit, .newConn, .connState .Connected, .closeNotify,
            .goReceive, .waitKill, .connState .Closing, .wsClose]
      ∧ notified (Upgrade srv (.ok "juggler.0".toList)) = [.Connected, .Closing] := by
  have h := Upgrade_served srv "juggler.0".toList rfl
  rw [hset] at h
  simp only [if_true, List.cons_append, List.nil_append, List.append_assoc] at h
  rw [h]
  exact ⟨rfl, rfl⟩

/-- The calls of the handler of a server with a read limit of 4096 bytes and
the callback set. -/
theorem served_connection_notifications_witness :
    Upgrade { ReadLimit := 4096, ConnState := true } (.ok "juggler.0".toList)
        = [.setReadLimit 4096, .newConn, .connState .Connected, .closeNotify,
            .goReceive, .waitKill, .connState .Closing, .wsClose]
      ∧ notified (Upgrade { ReadLimit := 4096, ConnState := true } (.ok "juggler.0".toList))
        = [.Connected, .Closing] :=
  served_connection_notifications { ReadLimit := 4096, ConnState := true } rfl

/-- C14: for a connection the handler accepts, when `Server.ConnState` is set
the callback is called exactly twice, with `Connected` before the receive flow
is started and with `Closing` after the close notification is observed, and
with no other state; when it is nil no callback is made. Whatever the result
of the upgrade, the notified states are strictly increasing in the order
Accepting, Connected, Closing, Closed. -/
theorem ConnState_called_for_Connected_and_Closing (srv : Server)
    (upgraded : Except GoError Str) :
    (srv.ConnState = true →
        Upgrade srv (.ok "juggler.0".toList)
          = [.setReadLimit srv.ReadLimit, .newConn, .connState .Connected, .closeNotify,
              .goReceive, .waitKill, .connState .Closing, .wsClose])
      ∧ (srv.ConnState = false →
        Upgrade srv (.ok "juggler.0".toList)
          = [.setReadLimit srv.ReadLimit, .newConn, .closeNotify, .goReceive, .waitKill,
              .wsClose])
      ∧ (notified (Upgrade srv upgraded)).Pairwise (fun a b => a.rank < b.rank) := by
  have h := Upgrade_served srv "juggler.0".toList rfl
  refine ⟨?_, ?_, ?_⟩
  · intro hset
    rw [hset] at h
    simpa using h
  · intro hnil
    rw [hnil] at h
    simpa using h
  · by_cases hup : upgraded = .ok "juggler.0".toList
    · rw [hup, h]
      cases srv.ConnState <;> simp [notified, ConnState.rank]
    · rw [notified_refused srv upgraded hup]
      exact List.Pairwise.nil

/-- C14, witness: the two servers, with and without the callback, and a
refused subprotocol. -/
theorem ConnState_called_for_Connected_and_Closing_witness :
    Upgrade { ReadLimit := 0, ConnState := true } (.ok "juggler.0".toList)
        = [.setReadLimit 0, .newConn, .connState .Connected, .closeNotify,
            .goReceive, .waitKill, .connState .Closing, .wsClose]
      ∧ Upgrade { ReadLimit := 0, ConnState := false } (.ok "juggler.0".toList)
        = [.setReadLimit 0, .newConn, .closeNotify, .goReceive, .waitKill, .wsClose]
      ∧ (notified (Upgrade { ReadLimit := 0, ConnState := true } (.ok "test".toList))).Pairwise
          (fun a b => a.rank < b.rank) :=
  ⟨(ConnState_called_for_Connected_and_Closing { ReadLimit := 0, ConnState := true }
      (.ok "test".toList)).1 rfl,
   (ConnState_called_for_Connected_and_Closing { ReadLimit := 0, ConnState := false }
      (.ok "test".toList)).2.1 rfl,
   (ConnState_called_for_Connected_and_Closing { ReadLimit := 0, ConnState := true }
      (.ok "test".toList)).2.2⟩

/-! ## C15: Close is terminal -/

/-- After `Close` the connection holds an error. -/
theorem Close_sets_err (env : Env) (s : St) : ∃ e, (Close env s).2.conn.err = some e := by
  obtain ⟨⟨fd, err, rc⟩, tr⟩ := s
  cases err <;> cases rc <;> simp [Close]

/-- On a connection that holds an error, a method call returns a non-nil
error and changes neither the connection nor the trace. -/
theorem step_broken (env : Env) (s : St) (e : GoError) (op : Op) (h : s.conn.err = some e) :
    step env s op = s ∧ ∃ e2, opResult env s op = .ret (some e2) := by
  obtain ⟨⟨fd, err, rc⟩, tr⟩ := s
  simp only at h
  subst h
  cases op with
  | Bind keys =>
    cases hl : bindLoop (-1) keys <;> simp [step, opResult, Bind, bind, hl]
  | Do cmd args => simp [step, opResult, Do, bind]
  | Send cmd args => simp [step, opResult, Send, bind]
  | Receive => simp [step, opResult, Receive, bind]
  | Flush => simp [step, opResult, Flush]
  | Err => simp [step, opResult, Err]
  | Close => simp [step, opResult, Close]

/-- On a connection that holds an error, a sequence of method calls changes
nothing and every call returns a non-nil error. -/
theorem run_broken (env : Env) (ops : List Op) (s : St) (e : GoError)
    (h : s.conn.err = some e) :
    run env s ops = s ∧ ∀ r ∈ runResults env s ops, ∃ e2, r = .ret (some e2) := by
  induction ops with
  | nil => exact ⟨rfl, by simp [runResults]⟩
  | cons op ops ih =>
    obtain ⟨hst, e2, hres⟩ := step_broken env s e op h
    constructor
    · have : run env s (op :: ops) = run env (step env s op) ops := rfl
      rw [this, hst]
      exact ih.1
    · intro r hr
      simp only [runResults, List.mem_cons] at hr
      rcases hr with hr | hr
      · exact ⟨e2, hr.trans hres⟩
      · rw [hst] at hr
        exact ih.2 r hr

/-- C15: the first `Close` of a connection (one that holds no error yet)
closes the upstream node connection exactly once when the connection is bound
and makes no call when it is unbound; after a `Close`, every sequence of `Do`,
`Send`, `Receive`, `Bind`, `Flush`, `Err` and `Close` calls leaves the
connection and the trace unchanged (the upstream is not touched or closed
again, the cluster is not asked for a node) and every one of the calls returns
a non-nil error. -/
theorem Close_is_terminal (env : Env) (s : St) (ops : List Op) :
    (s.conn.err = none →
        (Close env s).2.trace
          = s.trace ++ (match s.conn.rc with
                        | some n => [Event.nodeClose n]
                        | none => []))
      ∧ run env (Close env s).2 ops = (Close env s).2
      ∧ ∀ r ∈ runResults env (Close env s).2 ops, ∃ e, r = .ret (some e) := by
  obtain ⟨e, he⟩ := Close_sets_err env s
  refine ⟨?_, (run_broken env ops _ e he).1, (run_broken env ops _ e he).2⟩
  intro herr
  obtain ⟨⟨fd, err, rc⟩, tr⟩ := s
  simp only at herr
  subst herr
  cases rc <;> simp [Close]

/-- C15, witness: a connection bound to node 7 is closed, then every method
is called once more. -/
theorem Close_is_terminal_witness :
    (Close sampleEnv
        { conn := { forceDial := false, err := none, rc := some 7 }, trace := [] }).2.trace
        = [.nodeClose 7]
      ∧ run sampleEnv
          (Close sampleEnv
            { conn := { forceDial := false, err := none, rc := some 7 }, trace := [] }).2
          [.Do "GET".toList [.str "k".toList], .Send "GET".toList [.str "k".toList], .Receive,
            .Bind ["k".toList], .Flush, .Err, .Close]
        = (Close sampleEnv
            { conn := { forceDial := false, err := none, rc := some 7 }, trace := [] }).2
      ∧ ∀ r ∈ runResults sampleEnv
          (Close sampleEnv
            { conn := { forceDial := false, err := none, rc := some 7 }, trace := [] }).2
          [.Do "GET".toList [.str "k".toList], .Send "GET".toList [.str "k".toList], .Receive,
            .Bind ["k".toList], .Flush, .Err, .Close],
          ∃ e, r = .ret (some e) :=
  ⟨(Close_is_terminal sampleEnv
      { conn := { forceDial := false, err := none, rc := some 7 }, trace := [] }
      [.Do "GET".toList [.str "k".toList], .Send "GET".toList [.str "k".toList], .Receive,
        .Bind ["k".toList], .Flush, .Err, .Close]).1 rfl,
   (Close_is_terminal sampleEnv
      { conn := { forceDial := false, err := none, rc := some 7 }, trace := [] }
      [.Do "GET".toList [.str "k".toList], .Send "GET".toList [.str "k".toList], .Receive,
        .Bind ["k".toList], .Flush, .Err, .Close]).2⟩

/-! ## C16: the expiry of the timeout key is never zero -/

/-- The timeout `Call` hands to SET: 60000 when the timeout is below a
millisecond, and positive for every non-negative timeout. -/
theorem call_timeout_value (timeout : Int) :
    (0 ≤ timeout → timeout < millisecond →
        (if Int.tdiv timeout millisecond = 0
          then Int.tdiv defaultCallTimeout millisecond
          else Int.tdiv timeout millisecond) = 60000)
      ∧ (0 ≤ timeout →
        0 < (if Int.tdiv timeout millisecond = 0
          then Int.tdiv defaultCallTimeout millisecond
          else Int.tdiv timeout millisecond)) := by
  have hdef : Int.tdiv defaultCallTimeout millisecond = 60000 := by decide
  constructor
  · intro h0 hlt
    rw [Int.tdiv_eq_zero_of_lt h0 hlt, if_pos rfl, hdef]
  · intro h0
    have hdiv : Int.tdiv timeout millisecond = timeout / 1000000 :=
      Int.tdiv_eq_ediv h0 (by decide)
    rw [hdef, hdiv]
    split <;> omega

/-- C16, counterexample: for a payload that does not serialise, `Call` with a
timeout of zero returns the error of `json.Marshal` before it takes a
connection from the pool: no command is issued, so no timeout key is set. -/
theorem Call_sets_no_key_when_marshal_fails :
    (0 : Int) ≤ 0 ∧ (0 : Int) < millisecond
      ∧ Call failMarshalEnv "add".toList samplePayload 0 []
          = (some ⟨"json: error calling MarshalJSON"⟩, [])
      ∧ ¬ ∃ n args, Event.nodeSend n "SET".toList args
            ∈ (Call failMarshalEnv "add".toList samplePayload 0 []).2 := by
  refine ⟨by decide, by decide, rfl, ?_⟩
  have h : (Call failMarshalEnv "add".toList samplePayload 0 []).2 = [] := rfl
  rw [h]
  simp

/-- C16, as amended: when the payload serialises, `Call` queues, as its first
command on the pool connection, `SET juggler:calls:timeout:{u}:m v PX v` with
one value `v` for the value and the PX expiry; `v` is 60000 for every timeout
with `0 ≤ timeout < 1ms`, and strictly positive for every non-negative
timeout. -/
theorem Call_expiry_never_zero (env : Env) (uri : Str) (cp : CallPayload) (timeout : Int)
    (b : List Nat) (tr : List Event) (hm : env.marshal cp = .ok b) :
    ∃ v rest,
      (Call env uri cp timeout tr).2
          = tr ++ [.poolGet (env.poolGet tr),
                   .nodeSend (env.poolGet tr) "SET".toList
                     [.str (callTimeoutKey uri cp.MsgUUID), .int v, .str "PX".toList, .int v]]
              ++ rest
        ∧ (0 ≤ timeout → timeout < millisecond → v = 60000)
        ∧ (0 ≤ timeout → 0 < v) := by
  refine ⟨if Int.tdiv timeout millisecond = 0
      then Int.tdiv defaultCallTimeout millisecond
      else Int.tdiv timeout millisecond, ?_⟩
  obtain ⟨h1, h2⟩ := call_timeout_value timeout
  cases hs : env.sendErr (tr ++ [.poolGet (env.poolGet tr)]) (env.poolGet tr) "SET".toList
      [.str (callTimeoutKey uri cp.MsgUUID),
       .int (if Int.tdiv timeout millisecond = 0
          then Int.tdiv defaultCallTimeout millisecond
          else Int.tdiv timeout millisecond),
       .str "PX".toList,
       .int (if Int.tdiv timeout millisecond = 0
          then Int.tdiv defaultCallTimeout millisecond
          else Int.tdiv timeout millisecond)] with
  | some e =>
    refine ⟨[.nodeClose (env.poolGet tr)], ?_, h1, h2⟩
    simp only [Call, hm, hs]
    simp
  | none =>
    refine ⟨[.nodeDo (env.poolGet tr) "LPUSH".toList [.str (callKey uri), .bytes b],
      .nodeClose (env.poolGet tr)], ?_, h1, h2⟩
    simp only [Call, hm, hs]
    simp

/-- C16, witness: the sample payload with a timeout of zero and with a timeout
of half a millisecond. -/
theorem Call_expiry_never_zero_witness :
    (∃ v rest,
      (Call sampleEnv "add".toList samplePayload 0 []).2
          = [] ++ [.poolGet (sampleEnv.poolGet []),
                   .nodeSend (sampleEnv.poolGet []) "SET".toList
                     [.str (callTimeoutKey "add".toList samplePayload.MsgUUID), .int v,
                      .str "PX".toList, .int v]]
              ++ rest
        ∧ ((0 : Int) ≤ 0 → (0 : Int) < millisecond → v = 60000)
        ∧ ((0 : Int) ≤ 0 → 0 < v))
      ∧ ∃ v rest,
        (Call sampleEnv "add".toList samplePayload 500000 []).2
            = [] ++ [.poolGet (sampleEnv.poolGet []),
                     .nodeSend (sampleEnv.poolGet []) "SET".toList
                       [.str (callTimeoutKey "add".toList samplePayload.MsgUUID), .int v,
                        .str "PX".toList, .int v]]
                ++ rest
          ∧ ((0 : Int) ≤ 500000 → (500000 : Int) < millisecond → v = 60000)
          ∧ ((0 : Int) ≤ 500000 → 0 < v) :=
  ⟨Call_expiry_never_zero sampleEnv "add".toList samplePayload 0 [123, 125] [] rfl,
   Call_expiry_never_zero sampleEnv "add".toList samplePayload 500000 [123, 125] [] rfl⟩

end Juggler
